import Mathlib

/-!
# Verification of the PDF packet assembler

This development embeds the core of the PDF submittal-packet repository:

* `PDFService.generatePacket` (packet assembler: filter/sort the selection,
  fetch per-document base64 content, build the request payload, call the
  remote renderer and classify its response),
* `PDFService.downloadPDF` (artifact presenter, `.pdf` suffix handling),
* `DocumentService.exportDocumentAsBase64` (document encoder),
* `DocumentService.validatePDF` / `uploadDocument` (upload validation gate),

as pure Lean functions.  External collaborators (the document store, the
network, the browser) are modelled as explicit environments of oracles, and
every externally observable call made by the assembler is recorded in a
trace, so that claims of the form "no request is sent" become statements
about the trace.
-/

/-- A stored document record, as produced by
`DocumentService.mapDatabaseToDocument`.  The `url` is `Option` so that an
absent (`null`/`undefined`) locator is distinguished from a present one;
JavaScript falsiness of the empty string is handled separately. -/
structure Document where
  id : String
  name : String
  description : String
  filename : String
  url : Option String
  size : Nat
  type : String
  required : Bool
  productType : Option String
deriving Repr, DecidableEq

/-- A caller-controlled selection entry (`SelectedDocument` in the source):
an inclusion flag, an integer packet position, and the wrapped document. -/
structure SelectedDocument where
  id : String
  selected : Bool
  order : Int
  document : Document
deriving Repr, DecidableEq

/-- JavaScript falsiness of an optional string: `undefined`/`null` and the
empty string are falsy. -/
def strFalsy : Option String → Bool
  | none => true
  | some s => s == ""

/-- The `status` flag group of the project form data. -/
structure StatusFlags where
  forReview : Bool
  forApproval : Bool
  forRecord : Bool
  forInformationOnly : Bool
deriving Repr, DecidableEq

/-- The `submittalType` flag group of the project form data. -/
structure SubmittalTypeFlags where
  tds : Bool
  threePartSpecs : Bool
  testReportIccEsr5194 : Bool
  testReportIccEsl1645 : Bool
  fireAssembly : Bool
  fireAssembly01 : Bool
  fireAssembly02 : Bool
  fireAssembly03 : Bool
  msds : Bool
  leedGuide : Bool
  installationGuide : Bool
  warranty : Bool
  samples : Bool
  other : Bool
deriving Repr, DecidableEq

/-- The default `status` struct substituted by `generatePacket` when the
caller's form data lacks the group: every flag explicitly `false`. -/
def defaultStatusFlags : StatusFlags :=
  { forReview := false
    forApproval := false
    forRecord := false
    forInformationOnly := false }

/-- The default `submittalType` struct substituted by `generatePacket` when
the caller's form data lacks the group: every flag explicitly `false`. -/
def defaultSubmittalTypeFlags : SubmittalTypeFlags :=
  { tds := false
    threePartSpecs := false
    testReportIccEsr5194 := false
    testReportIccEsl1645 := false
    fireAssembly := false
    fireAssembly01 := false
    fireAssembly02 := false
    fireAssembly03 := false
    msds := false
    leedGuide := false
    installationGuide := false
    warranty := false
    samples := false
    other := false }

/-- The caller-supplied `Partial<ProjectFormData>`: the fields the assembler
inspects (`productType`, `status`, `submittalType`) are optional, and `rest`
stands for the remaining spread fields (`...formData`). -/
structure ProjectFormInput where
  rest : List (String × String)
  productType : Option String
  status : Option StatusFlags
  submittalType : Option SubmittalTypeFlags
deriving Repr, DecidableEq

/-- The `projectData` object of the built payload: the spread of the form
data with `status` and `submittalType` always present. -/
structure ProjectData where
  rest : List (String × String)
  productType : Option String
  status : StatusFlags
  submittalType : SubmittalTypeFlags
deriving Repr, DecidableEq

/-- One entry of the payload's `documents` array:
`{id, name, url, type, fileData?}`. -/
structure DocEntry where
  id : String
  name : String
  url : String
  type : String
  fileData : Option String
deriving Repr, DecidableEq

/-- The structured request sent to the remote renderer. -/
structure PacketPayload where
  projectData : ProjectData
  documents : List DocEntry
  selectedDocumentNames : List String
  allAvailableDocuments : List String
deriving Repr, DecidableEq

/-- Payload construction of `generatePacket`: merge the form data with the
default flag structs (`formData.status || {...}` and
`formData.submittalType || {...}`) and attach the document payloads and the
name lists. -/
def buildPayload (formData : ProjectFormInput) (documentsWithData : List DocEntry)
    (selectedDocumentNames : List String) (allAvailableDocuments : List String) :
    PacketPayload :=
  { projectData :=
      { rest := formData.rest
        productType := formData.productType
        status := formData.status.getD defaultStatusFlags
        submittalType := formData.submittalType.getD defaultSubmittalTypeFlags }
    documents := documentsWithData
    selectedDocumentNames := selectedDocumentNames
    allAvailableDocuments := allAvailableDocuments }

/-- Result of `response.json()` on an error body: the `message` field when
present and truthy is `some`, with `stringified` standing for
`JSON.stringify(errorData)`. -/
structure JsonObj where
  message : Option String
  stringified : String
deriving Repr, DecidableEq

/-- A renderer HTTP response: status, status text, the two body readings the
error path may use (`jsonBody = none` models `response.json()` throwing, in
which case `textBody` is the raw text), and the bytes of
`response.arrayBuffer()`. -/
structure RendererResponse where
  status : Nat
  statusText : String
  jsonBody : Option JsonObj
  textBody : String
  bytes : List Nat
deriving Repr, DecidableEq

/-- The `response.ok` test of the fetch API: status in the range 200–299. -/
def RendererResponse.ok (r : RendererResponse) : Bool :=
  decide (200 ≤ r.status) && decide (r.status ≤ 299)

/-- The error message composed by `generatePacket` for a non-ok renderer
response: base text with status, then `errorData.message ||
JSON.stringify(errorData)` when the body parses as JSON, else the raw
text. -/
def renderErrorMessage (r : RendererResponse) : String :=
  let base := "Worker request failed: " ++ toString r.status ++ " " ++ r.statusText
  match r.jsonBody with
  | some errorData =>
      match errorData.message with
      | some m =>
          if m == "" then base ++ " - " ++ errorData.stringified
          else base ++ " - " ++ m
      | none => base ++ " - " ++ errorData.stringified
  | none => base ++ " - " ++ r.textBody

/-- Outcome of the `fetch` to the renderer: a transport-level rejection
(a `TypeError` whose message is recorded) or an HTTP response. -/
inductive RendererResult where
  | networkError (message : String)
  | response (r : RendererResponse)
deriving Repr, DecidableEq

/-- The distinct failure classes of `generatePacket`, one per throw site. -/
inductive PacketError where
  | emptySelection
  | documentProcessing (docName : String)
  | catalogFailure (message : String)
  | rendererUnreachable (endpoint : String)
  | transportFailure (message : String)
  | render (status : Nat) (message : String)
  | emptyArtifact
deriving Repr, DecidableEq

/-- Environment of external collaborators used by `generatePacket`: the
document service's base64 export (which may throw, modelled as `.error`),
the catalog fetch by product type, and the renderer network call. -/
structure PdfEnv where
  exportDocumentAsBase64 : String → Except String (Option String)
  getDocumentsByProductType : Option String → Except String (List Document)
  rendererFetch : PacketPayload → RendererResult

/-- One externally observable call made during an assembly. -/
inductive Call where
  | exportDocument (docId : String)
  | catalogFetch (productType : Option String)
  | rendererRequest (payload : PacketPayload)
deriving Repr, DecidableEq

/-- Comparison used by `.sort((a, b) => a.order - b.order)`. -/
def docLE (a b : SelectedDocument) : Bool :=
  decide (a.order ≤ b.order)

/-- The filter-then-stable-sort of `generatePacket`:
`selectedDocuments.filter(doc => doc.selected).sort((a, b) => a.order - b.order)`.
JavaScript's `Array.prototype.sort` is stable, as is `List.mergeSort`. -/
def sortedSelection (selectedDocuments : List SelectedDocument) :
    List SelectedDocument :=
  (selectedDocuments.filter (fun d => d.selected)).mergeSort docLE

/-- The per-document body of the `Promise.all`: export the document's
content as base64, build the payload entry (`url: doc.document.url || ''`,
`fileData: fileData || undefined`), converting any thrown error into the
`Failed to process document` failure naming the document. -/
def processDoc (env : PdfEnv) (doc : SelectedDocument) : Except PacketError DocEntry :=
  match env.exportDocumentAsBase64 doc.document.id with
  | .error _ => .error (.documentProcessing doc.document.name)
  | .ok fileData =>
      .ok { id := doc.id
            name := doc.document.name
            url := doc.document.url.getD ""
            type := doc.document.type
            fileData :=
              match fileData with
              | some s => if s == "" then none else some s
              | none => none }

/-- The `Promise.all(sortedDocs.map ...)` stage: all exports are issued; the result is
the list of entries, or the first failure (all-or-nothing). -/
def processAll (env : PdfEnv) : List SelectedDocument → Except PacketError (List DocEntry)
  | [] => .ok []
  | doc :: rest =>
      match processDoc env doc, processAll env rest with
      | .error e, _ => .error e
      | .ok _, .error e => .error e
      | .ok entry, .ok entries => .ok (entry :: entries)

/-- The configured renderer endpoint (the default production worker URL). -/
def workerUrl : String :=
  "https://pdf-packet-generator.maxterra-pdf-builder.workers.dev"

/-- The test `error.message.includes('fetch')`, the one the catch-all clause uses to
recognise a connectivity failure. -/
def messageIncludesFetch (msg : String) : Bool :=
  (msg.splitOn "fetch").length != 1

/-- Model of `PDFService.generatePacket`, returning the trace of external calls and
either the PDF bytes or the failure.  The stages mirror the source: filter
and stable-sort the selection, reject an empty selection before any call,
export every selected document's content (first failure aborts, naming the
document), fetch the product-type catalog, build the payload, post it to the
renderer, and classify the response (non-ok status, empty body, success). -/
def generatePacket (env : PdfEnv) (formData : ProjectFormInput)
    (selectedDocuments : List SelectedDocument) :
    List Call × Except PacketError (List Nat) :=
  let sortedDocs := sortedSelection selectedDocuments
  if sortedDocs.length == 0 then
    ([], .error .emptySelection)
  else
    let exportCalls := sortedDocs.map (fun d => Call.exportDocument d.document.id)
    match processAll env sortedDocs with
    | .error e => (exportCalls, .error e)
    | .ok documentsWithData =>
      let selectedDocumentNames := sortedDocs.map (fun d => d.document.name)
      let catalogCalls := exportCalls ++ [Call.catalogFetch formData.productType]
      match env.getDocumentsByProductType formData.productType with
      | .error e => (catalogCalls, .error (.catalogFailure e))
      | .ok allCategoryDocs =>
        let payload := buildPayload formData documentsWithData selectedDocumentNames
            (allCategoryDocs.map (fun d => d.name))
        let allCalls := catalogCalls ++ [Call.rendererRequest payload]
        match env.rendererFetch payload with
        | .networkError msg =>
            if messageIncludesFetch msg then
              (allCalls, .error (.rendererUnreachable workerUrl))
            else
              (allCalls, .error (.transportFailure msg))
        | .response r =>
            if !r.ok then
              (allCalls, .error (.render r.status (renderErrorMessage r)))
            else if r.bytes.length == 0 then
              (allCalls, .error .emptyArtifact)
            else
              (allCalls, .ok r.bytes)

/-- The `.pdf` suffix handling of `PDFService.downloadPDF`:
`if (!filename.endsWith('.pdf')) filename += '.pdf'`.  Filenames are
modelled as character lists. -/
def ensurePdfSuffix (filename : List Char) : List Char :=
  if (".pdf".toList).isSuffixOf filename then filename
  else filename ++ ".pdf".toList

/-- The save action triggered by `downloadPDF`: the anchor's `download`
attribute (the final filename) and the bytes materialised in the blob. -/
structure SaveAction where
  filename : List Char
  bytes : List Nat
deriving Repr, DecidableEq

/-- Model of `PDFService.downloadPDF`, given as the save action it triggers. -/
def downloadPDF (pdfBytes : List Nat) (filename : List Char) : SaveAction :=
  { filename := ensurePdfSuffix filename, bytes := pdfBytes }

/-- Environment of `DocumentService.exportDocumentAsBase64`: the database
lookup (`getDocument`, which may throw), the content fetch
(`fetch(doc.url)` followed by `.blob()`, collapsed into one byte-producing
oracle), and the `FileReader.readAsDataURL` conversion. -/
structure DocEnv where
  getDocument : String → Except String (Option Document)
  fetchBytes : String → Except String (List Nat)
  readAsDataURL : List Nat → Except String String

/-- Model of `DocumentService.exportDocumentAsBase64`: `null` when the record is
missing or its `url` is falsy; the fetch is wrapped in a try/catch that
returns `null` on failure; the data URL is split at commas and part 1 is the
base64 payload.  A rejection of the `FileReader` promise escapes the
try/catch (the promise is returned, not awaited, inside the `try`). -/
def exportDocumentAsBase64 (env : DocEnv) (id : String) :
    Except String (Option String) :=
  match env.getDocument id with
  | .error e => .error e
  | .ok none => .ok none
  | .ok (some doc) =>
      if strFalsy doc.url then .ok none
      else
        match env.fetchBytes (doc.url.getD "") with
        | .error _ => .ok none
        | .ok bytes =>
            match env.readAsDataURL bytes with
            | .error e => .error e
            | .ok dataUrl => .ok ((dataUrl.splitOn ",").drop 1).head?

/-- Modelled from the spec: the standard base64 alphabet (§4.2 "standard
base64 alphabet"); the encoding itself is performed by the browser's
`FileReader.readAsDataURL` inside `exportDocumentAsBase64` and is not part
of the repository's own sources. -/
def b64Char (n : Nat) : Char :=
  if n < 26 then Char.ofNat (65 + n)
  else if n < 52 then Char.ofNat (97 + (n - 26))
  else if n < 62 then Char.ofNat (48 + (n - 52))
  else if n = 62 then '+'
  else '/'

/-- Value of a standard base64 alphabet character, `none` for a character
outside the alphabet. -/
def b64Index (c : Char) : Option Nat :=
  if 'A' ≤ c ∧ c ≤ 'Z' then some (c.toNat - 65)
  else if 'a' ≤ c ∧ c ≤ 'z' then some (c.toNat - 97 + 26)
  else if '0' ≤ c ∧ c ≤ '9' then some (c.toNat - 48 + 52)
  else if c = '+' then some 62
  else if c = '/' then some 63
  else none

/-- Modelled from the spec: standard base64 encoding of a byte sequence
(RFC 4648: three bytes per four characters, `=` padding, no line folding) —
the encoding `exportDocumentAsBase64` obtains from the browser. -/
def base64EncodeChunks : List Nat → List Char
  | b0 :: b1 :: b2 :: rest =>
      b64Char (b0 / 4) :: b64Char (b0 % 4 * 16 + b1 / 16) ::
      b64Char (b1 % 16 * 4 + b2 / 64) :: b64Char (b2 % 64) ::
      base64EncodeChunks rest
  | [b0, b1] =>
      [b64Char (b0 / 4), b64Char (b0 % 4 * 16 + b1 / 16), b64Char (b1 % 16 * 4), '=']
  | [b0] =>
      [b64Char (b0 / 4), b64Char (b0 % 4 * 16), '=', '=']
  | [] => []

/-- Strict standard base64 decoding: four characters per three bytes,
padding only in a final chunk, `none` on any malformed input. -/
def base64DecodeChunks : List Char → Option (List Nat)
  | [] => some []
  | c0 :: c1 :: c2 :: c3 :: rest =>
      match b64Index c0, b64Index c1 with
      | some i0, some i1 =>
          if c2 = '=' then
            if c3 = '=' ∧ rest = [] then some [i0 * 4 + i1 / 16] else none
          else
            match b64Index c2 with
            | some i2 =>
                if c3 = '=' then
                  if rest = [] then
                    some [i0 * 4 + i1 / 16, i1 % 16 * 16 + i2 / 4]
                  else none
                else
                  match b64Index c3, base64DecodeChunks rest with
                  | some i3, some bytesRest =>
                      some ((i0 * 4 + i1 / 16) :: (i1 % 16 * 16 + i2 / 4) ::
                            (i2 % 4 * 64 + i3) :: bytesRest)
                  | _, _ => none
            | none => none
      | _, _ => none
  | _ => none

/-- Base64 encoding as a string. -/
def base64Encode (bytes : List Nat) : String :=
  String.mk (base64EncodeChunks bytes)

/-- Base64 decoding from a string. -/
def base64Decode (s : String) : Option (List Nat) :=
  base64DecodeChunks s.toList

/-- A file handed to `uploadDocument`: browser-reported name, media type and
size, plus the outcome of reading its first five bytes
(`file.slice(0, 5).arrayBuffer()`, which may fail). -/
structure UploadFile where
  name : String
  type : String
  size : Nat
  headBytes : Except Unit (List Nat)

/-- Result shape of `DocumentService.validatePDF`. -/
structure ValidationResult where
  valid : Bool
  error : Option String
deriving Repr, DecidableEq

/-- Model of `DocumentService.validatePDF`: media type, maximum size, minimum size,
then the `%PDF` signature sniff on the first five bytes (with a read
failure reported as its own message). -/
def validatePDF (file : UploadFile) : ValidationResult :=
  if file.type != "application/pdf" then
    { valid := false, error := some "File must be a PDF document" }
  else if file.size > 50 * 1024 * 1024 then
    { valid := false, error := some "File size exceeds 50MB limit" }
  else if file.size < 1024 then
    { valid := false, error := some "File is too small to be a valid PDF" }
  else
    match file.headBytes with
    | .error _ => { valid := false, error := some "Failed to read file" }
    | .ok bytes =>
        let signature := String.mk (bytes.map Char.ofNat)
        if !signature.startsWith "%PDF" then
          { valid := false, error := some "File does not appear to be a valid PDF" }
        else
          { valid := true, error := none }

/-- The `s.includes(sub)` test of JavaScript strings. -/
def stringIncludes (s sub : String) : Bool :=
  (s.splitOn sub).length != 1

/-- Model of `DocumentService.detectDocumentType`: keyword sniffing over the
lower-cased filename, defaulting to TDS. -/
def detectDocumentType (filename : String) : String :=
  let lower := filename.toLower
  if stringIncludes lower "tds" || stringIncludes lower "technical data" then "TDS"
  else if stringIncludes lower "esr" || stringIncludes lower "evaluation report" then "ESR"
  else if stringIncludes lower "msds" || stringIncludes lower "safety data" then "MSDS"
  else if stringIncludes lower "leed" then "LEED"
  else if stringIncludes lower "installation" || stringIncludes lower "install" then "Installation"
  else if stringIncludes lower "warranty" then "warranty"
  else if stringIncludes lower "acoustic" || stringIncludes lower "esl" then "Acoustic"
  else if stringIncludes lower "spec" || stringIncludes lower "3-part" then "PartSpec"
  else "TDS"

/-- The `/\.pdf$/i` strip of `extractDocumentName`. -/
def stripPdfExtension (filename : String) : String :=
  if filename.toLower.endsWith ".pdf" then filename.dropRight 4 else filename

/-- Model of `DocumentService.extractDocumentName`: the type map's display name, the
stripped filename only when the type is unknown to the map. -/
def extractDocumentName (filename : String) (type : String) : String :=
  let name := stripPdfExtension filename
  let mapped : Option String :=
    if type = "TDS" then some "Technical Data Sheet"
    else if type = "ESR" then some "Evaluation Report"
    else if type = "MSDS" then some "Material Safety Data Sheet"
    else if type = "LEED" then some "LEED Credit Guide"
    else if type = "Installation" then some "Installation Guide"
    else if type = "warranty" then some "Limited Warranty"
    else if type = "Acoustic" then some "Acoustical Performance"
    else if type = "PartSpec" then some "3-Part Specifications"
    else none
  match mapped with
  | some m => m
  | none => name

/-- A `documents` table row as returned by the insert. -/
structure DbRow where
  id : String
  name : String
  description : String
  filename : String
  fileUrl : String
  size : Nat
  type : String
  productType : String
  required : Bool
deriving Repr, DecidableEq

/-- The column values `uploadDocument` inserts. -/
structure DbInsertRow where
  name : String
  description : String
  filename : String
  fileUrl : String
  size : Nat
  type : String
  productType : String
  required : Bool
deriving Repr, DecidableEq

/-- Model of `DocumentService.mapDatabaseToDocument`, on a row of the model. -/
def mapDatabaseToDocument (dbDoc : DbRow) : Document :=
  { id := dbDoc.id
    name := dbDoc.name
    description := dbDoc.description
    filename := dbDoc.filename
    url := some dbDoc.fileUrl
    size := dbDoc.size
    type := dbDoc.type
    required := dbDoc.required
    productType := some dbDoc.productType }

/-- One externally observable call made during an upload. -/
inductive UploadCall where
  | getUser
  | storageUpload (path : String)
  | getPublicUrl (path : String)
  | insertRow (row : DbInsertRow)
  | storageRemove (path : String)
deriving Repr, DecidableEq

/-- Environment of `uploadDocument`: the auth check, the random path segment
(`Date.now()-Math.random()`), the storage upload, the public URL resolution
and the metadata insert. -/
structure UploadEnv where
  getUser : Except String (Option Unit)
  freshPathSegment : String
  storageUpload : String → Except String String
  getPublicUrl : String → String
  insertDocument : DbInsertRow → Except String DbRow

/-- Model of `DocumentService.uploadDocument`, returning the trace of external calls
and either the stored document or the failure message.  Validation runs
first; only when it passes does any auth, storage or database call occur. -/
def uploadDocument (env : UploadEnv) (file : UploadFile) (productType : String) :
    List UploadCall × Except String Document :=
  let validation := validatePDF file
  if validation.valid = false then
    ([], .error (match validation.error with
                 | some e => if e == "" then "Invalid PDF file" else e
                 | none => "Invalid PDF file"))
  else
    match env.getUser with
    | .error _ => ([.getUser], .error "You must be logged in to upload documents")
    | .ok none => ([.getUser], .error "You must be logged in to upload documents")
    | .ok (some _) =>
      let fileExt := (file.name.splitOn ".").getLastD ""
      let fileName := productType ++ "/" ++ env.freshPathSegment ++ "." ++ fileExt
      match env.storageUpload fileName with
      | .error msg =>
          ([.getUser, .storageUpload fileName],
           .error ("Failed to upload file: " ++ msg))
      | .ok path =>
        let publicUrl := env.getPublicUrl path
        let type := detectDocumentType file.name
        let name := extractDocumentName file.name type
        let row : DbInsertRow :=
          { name := name
            description := type ++ " Document"
            filename := file.name
            fileUrl := publicUrl
            size := file.size
            type := productType
            productType := productType
            required := false }
        match env.insertDocument row with
        | .error msg =>
            ([.getUser, .storageUpload fileName, .getPublicUrl path,
              .insertRow row, .storageRemove path],
             .error ("Failed to save document metadata: " ++ msg))
        | .ok dbRow =>
            ([.getUser, .storageUpload fileName, .getPublicUrl path,
              .insertRow row],
             .ok (mapDatabaseToDocument dbRow))

/-- Success test for the export oracle (`.ok` outcome, any payload). -/
def exportOk {ε α : Type} : Except ε α → Bool
  | .ok _ => true
  | .error _ => false

/-- The document entry `processDoc` builds when the export succeeds. -/
def entryFor (env : PdfEnv) (doc : SelectedDocument) : DocEntry :=
  { id := doc.id
    name := doc.document.name
    url := doc.document.url.getD ""
    type := doc.document.type
    fileData :=
      match env.exportDocumentAsBase64 doc.document.id with
      | .ok (some s) => if s == "" then none else some s
      | _ => none }

/-- The payload `generatePacket` assembles once every export and the catalog
fetch have succeeded. -/
def assembledPayload (env : PdfEnv) (formData : ProjectFormInput)
    (selectedDocuments : List SelectedDocument) (catalog : List Document) :
    PacketPayload :=
  buildPayload formData
    ((sortedSelection selectedDocuments).map (entryFor env))
    ((sortedSelection selectedDocuments).map (fun d => d.document.name))
    (catalog.map (fun d => d.name))

theorem pairwiseOfMemRel {α : Type} {r : α → α → Prop} :
    ∀ l : List α, (∀ a ∈ l, ∀ b ∈ l, r a b) → l.Pairwise r
  | [], _ => .nil
  | a :: t, h =>
      .cons (fun b hb => h a (by simp) b (by simp [hb]))
        (pairwiseOfMemRel t (fun x hx y hy => h x (by simp [hx]) y (by simp [hy])))

theorem ensurePdfSuffix_ends (filename : List Char) :
    (".pdf".toList).isSuffixOf (ensurePdfSuffix filename) = true := by
  by_cases h : (".pdf".toList).isSuffixOf filename = true
  · rw [ensurePdfSuffix, if_pos h]; exact h
  · rw [ensurePdfSuffix, if_neg h]
    simp only [List.isSuffixOf_iff_suffix]
    exact List.suffix_append _ _

theorem ensurePdfSuffix_of_ends (filename : List Char)
    (h : (".pdf".toList).isSuffixOf filename = true) :
    ensurePdfSuffix filename = filename := by
  rw [ensurePdfSuffix, if_pos h]

/-- A concrete stored document used to instantiate theorems. -/
def sampleDocument : Document :=
  { id := "doc-1"
    name := "Technical Data Sheet"
    description := ""
    filename := "tds.pdf"
    url := some "https://example.com/tds.pdf"
    size := 2048
    type := "TDS"
    required := false
    productType := some "underlayment" }

/-- A concrete form input lacking both flag groups. -/
def sampleFormInput : ProjectFormInput :=
  { rest := []
    productType := some "underlayment"
    status := none
    submittalType := none }

/-- A concrete happy-path environment used to instantiate theorems. -/
def sampleEnv : PdfEnv :=
  { exportDocumentAsBase64 := fun _ => .ok (some "JVBERg==")
    getDocumentsByProductType := fun _ => .ok [sampleDocument]
    rendererFetch := fun _ => .response
      { status := 200
        statusText := "OK"
        jsonBody := none
        textBody := ""
        bytes := [37, 80, 68, 70] } }

/-- C7: `downloadPDF` saves under a `.pdf`-suffixed name, appending the
suffix exactly when absent: `"report"` is saved as `"report.pdf"`,
`"report.pdf"` stays `"report.pdf"`, the saved name always carries the
suffix, names already carrying it are unchanged, and the transformation is
idempotent. -/
theorem downloadPDF_pdf_suffix :
    (∀ bytes : List Nat,
        (downloadPDF bytes ("report".toList)).filename = "report.pdf".toList) ∧
    (∀ bytes : List Nat,
        (downloadPDF bytes ("report.pdf".toList)).filename = "report.pdf".toList) ∧
    (∀ (bytes : List Nat) (filename : List Char),
        (downloadPDF bytes filename).filename = ensurePdfSuffix filename ∧
        (downloadPDF bytes filename).bytes = bytes) ∧
    (∀ filename : List Char,
        (".pdf".toList).isSuffixOf ((downloadPDF [] filename).filename) = true) ∧
    (∀ filename : List Char, (".pdf".toList).isSuffixOf filename = true →
        ensurePdfSuffix filename = filename) ∧
    (∀ filename : List Char,
        ensurePdfSuffix (ensurePdfSuffix filename) = ensurePdfSuffix filename) := by
  refine ⟨?_, ?_, fun bytes filename => ⟨rfl, rfl⟩,
    fun filename => ensurePdfSuffix_ends filename,
    fun filename h => ensurePdfSuffix_of_ends filename h,
    fun filename => ensurePdfSuffix_of_ends _ (ensurePdfSuffix_ends filename)⟩
  · intro bytes
    show ensurePdfSuffix ("report".toList) = "report.pdf".toList
    decide
  · intro bytes
    show ensurePdfSuffix ("report.pdf".toList) = "report.pdf".toList
    decide

/-- Closed instance of `downloadPDF_pdf_suffix`: saving concrete bytes under
`"report"` targets `"report.pdf"`, and a name already carrying the suffix is
left unchanged. -/
theorem downloadPDF_pdf_suffix_witness :
    (downloadPDF [37, 80] ("report".toList)).filename = "report.pdf".toList ∧
    ensurePdfSuffix ("report.pdf".toList) = "report.pdf".toList :=
  ⟨downloadPDF_pdf_suffix.1 [37, 80],
   downloadPDF_pdf_suffix.2.2.2.2.1 ("report.pdf".toList) (by decide)⟩

/-- C4: the built request's `projectData` always contains both flag groups;
an absent group is replaced by the struct with every flag explicitly
`false`, and a present group is passed through unchanged. -/
theorem buildPayload_flag_groups (formData : ProjectFormInput)
    (documentsWithData : List DocEntry) (names allNames : List String) :
    (formData.status = none →
      (buildPayload formData documentsWithData names allNames).projectData.status =
        defaultStatusFlags) ∧
    (defaultStatusFlags.forReview = false ∧ defaultStatusFlags.forApproval = false ∧
      defaultStatusFlags.forRecord = false ∧ defaultStatusFlags.forInformationOnly = false) ∧
    (∀ s, formData.status = some s →
      (buildPayload formData documentsWithData names allNames).projectData.status = s) ∧
    (formData.submittalType = none →
      (buildPayload formData documentsWithData names allNames).projectData.submittalType =
        defaultSubmittalTypeFlags) ∧
    (defaultSubmittalTypeFlags.tds = false ∧ defaultSubmittalTypeFlags.threePartSpecs = false ∧
      defaultSubmittalTypeFlags.testReportIccEsr5194 = false ∧
      defaultSubmittalTypeFlags.testReportIccEsl1645 = false ∧
      defaultSubmittalTypeFlags.fireAssembly = false ∧
      defaultSubmittalTypeFlags.fireAssembly01 = false ∧
      defaultSubmittalTypeFlags.fireAssembly02 = false ∧
      defaultSubmittalTypeFlags.fireAssembly03 = false ∧
      defaultSubmittalTypeFlags.msds = false ∧ defaultSubmittalTypeFlags.leedGuide = false ∧
      defaultSubmittalTypeFlags.installationGuide = false ∧
      defaultSubmittalTypeFlags.warranty = false ∧ defaultSubmittalTypeFlags.samples = false ∧
      defaultSubmittalTypeFlags.other = false) ∧
    (∀ s, formData.submittalType = some s →
      (buildPayload formData documentsWithData names allNames).projectData.submittalType = s) := by
  refine ⟨fun h => ?_, by decide, fun s h => ?_, fun h => ?_, by decide, fun s h => ?_⟩ <;>
    simp [buildPayload, h]

/-- Closed instance of `buildPayload_flag_groups`: form data lacking both
groups yields the all-false structs. -/
theorem buildPayload_flag_groups_witness :
    (buildPayload sampleFormInput [] [] []).projectData.status = defaultStatusFlags ∧
    (buildPayload sampleFormInput [] [] []).projectData.submittalType =
      defaultSubmittalTypeFlags :=
  ⟨(buildPayload_flag_groups sampleFormInput [] [] []).1 rfl,
   (buildPayload_flag_groups sampleFormInput [] [] []).2.2.2.1 rfl⟩

/-- C2: a selection that is empty or entirely unselected fails with the
empty-selection error and an empty call trace: no document export, no
catalog fetch and no renderer request is issued. -/
theorem generatePacket_empty_selection (env : PdfEnv) (formData : ProjectFormInput)
    (selectedDocuments : List SelectedDocument)
    (h : selectedDocuments.filter (fun d => d.selected) = []) :
    generatePacket env formData selectedDocuments = ([], .error .emptySelection) := by
  simp [generatePacket, sortedSelection, h]

/-- Closed instance of `generatePacket_empty_selection`: a selection whose
single entry is unselected produces the empty-selection failure with no
calls, against a fully concrete environment. -/
theorem generatePacket_empty_selection_witness :
    generatePacket sampleEnv sampleFormInput
      [{ id := "sel-1", selected := false, order := 1, document := sampleDocument }] =
      ([], .error .emptySelection) :=
  generatePacket_empty_selection _ _ _ (by decide)

/-- A document-store environment in which the content fetch always fails
with a network error, while the record lookup and the reader succeed. -/
def fetchFailEnv : DocEnv :=
  { getDocument := fun id => if id = "doc-1" then .ok (some sampleDocument) else .ok none
    fetchBytes := fun _ => .error "network failure"
    readAsDataURL := fun bytes => .ok ("data:application/pdf;base64," ++ base64Encode bytes) }

/-- C8 counterexample: the record `doc-1` exists and carries a retrievable
URL, the fetch of that URL fails, and `exportDocumentAsBase64` returns
`null` — it does not raise the retrieval exception the claim promises for
this case. -/
theorem exportDocumentAsBase64_fetch_failure_yields_null :
    fetchFailEnv.getDocument "doc-1" = .ok (some sampleDocument) ∧
    sampleDocument.url = some "https://example.com/tds.pdf" ∧
    fetchFailEnv.fetchBytes "https://example.com/tds.pdf" = .error "network failure" ∧
    exportDocumentAsBase64 fetchFailEnv "doc-1" = .ok none := by
  refine ⟨by simp [fetchFailEnv], rfl, rfl, ?_⟩
  simp [exportDocumentAsBase64, fetchFailEnv, sampleDocument, strFalsy]

/-- C8 (amended): `exportDocumentAsBase64` returns `null` when the record is
missing, when its URL is falsy, and also when fetching the content of its
URL fails (the fetch is wrapped in a catch-all returning `null`); an
exception propagates only from the record lookup or from the data-URL read
of successfully fetched content. -/
theorem exportDocumentAsBase64_null_cases (env : DocEnv) (id : String) :
    (env.getDocument id = .ok none → exportDocumentAsBase64 env id = .ok none) ∧
    (∀ doc, env.getDocument id = .ok (some doc) → strFalsy doc.url = true →
        exportDocumentAsBase64 env id = .ok none) ∧
    (∀ doc e, env.getDocument id = .ok (some doc) → strFalsy doc.url = false →
        env.fetchBytes (doc.url.getD "") = .error e →
        exportDocumentAsBase64 env id = .ok none) ∧
    (∀ e, exportDocumentAsBase64 env id = .error e →
        env.getDocument id = .error e ∨
        ∃ doc bytes, env.getDocument id = .ok (some doc) ∧ strFalsy doc.url = false ∧
          env.fetchBytes (doc.url.getD "") = .ok bytes ∧
          env.readAsDataURL bytes = .error e) := by
  refine ⟨fun h => by simp [exportDocumentAsBase64, h],
    fun doc h hu => by simp [exportDocumentAsBase64, h, hu],
    fun doc e h hu hf => by simp [exportDocumentAsBase64, h, hu, hf],
    fun e h => ?_⟩
  cases hg : env.getDocument id with
  | error e' =>
      have hexp : exportDocumentAsBase64 env id = .error e' := by
        simp [exportDocumentAsBase64, hg]
      rw [hexp] at h
      injection h with he
      subst he
      exact Or.inl rfl
  | ok od =>
      cases od with
      | none => simp [exportDocumentAsBase64, hg] at h
      | some doc =>
          by_cases hu : strFalsy doc.url = true
          · simp [exportDocumentAsBase64, hg, hu] at h
          · rw [Bool.not_eq_true] at hu
            cases hf : env.fetchBytes (doc.url.getD "") with
            | error e'' => simp [exportDocumentAsBase64, hg, hu, hf] at h
            | ok bytes =>
                cases hr : env.readAsDataURL bytes with
                | error e'' =>
                    have hexp : exportDocumentAsBase64 env id = .error e'' := by
                      simp [exportDocumentAsBase64, hg, hu, hf, hr]
                    rw [hexp] at h
                    injection h with he
                    subst he
                    exact Or.inr ⟨doc, bytes, rfl, hu, hf, hr⟩
                | ok dataUrl =>
                    simp [exportDocumentAsBase64, hg, hu, hf, hr] at h

/-- Closed instance of `exportDocumentAsBase64_null_cases`: the concrete
fetch-failure environment yields `null`. -/
theorem exportDocumentAsBase64_null_cases_witness :
    exportDocumentAsBase64 fetchFailEnv "doc-1" = .ok none :=
  (exportDocumentAsBase64_null_cases fetchFailEnv "doc-1").2.2.1 sampleDocument
    "network failure" (by simp [fetchFailEnv]) (by decide) rfl

/-- Auxiliary: a failed validation makes `uploadDocument` fail with the
validation's message (the messages are all non-empty) before any call. -/
theorem uploadDocument_invalid (env : UploadEnv) (file : UploadFile)
    (productType msg : String)
    (hv : validatePDF file = { valid := false, error := some msg })
    (hne : (msg == "") = false) :
    uploadDocument env file productType = ([], .error msg) := by
  simp [uploadDocument, hv, hne]

/-- C10: a file that is not `application/pdf`, or larger than 52428800
bytes, or smaller than 1024 bytes, or whose first bytes lack the `%PDF`
signature, makes `uploadDocument` fail with the corresponding validation
message, with an empty call trace: no auth check, no storage upload and no
database insert occurs. -/
theorem uploadDocument_rejects_invalid (env : UploadEnv) (file : UploadFile)
    (productType : String)
    (h : file.type ≠ "application/pdf" ∨ 52428800 < file.size ∨ file.size < 1024 ∨
      (∃ bs, file.headBytes = .ok bs ∧
        (String.mk (bs.map Char.ofNat)).startsWith "%PDF" = false)) :
    ∃ msg, uploadDocument env file productType = ([], .error msg) ∧
      validatePDF file = { valid := false, error := some msg } ∧
      (file.type ≠ "application/pdf" → msg = "File must be a PDF document") ∧
      (file.type = "application/pdf" → 52428800 < file.size →
        msg = "File size exceeds 50MB limit") ∧
      (file.type = "application/pdf" → file.size ≤ 52428800 → file.size < 1024 →
        msg = "File is too small to be a valid PDF") ∧
      (file.type = "application/pdf" → file.size ≤ 52428800 → 1024 ≤ file.size →
        msg = "File does not appear to be a valid PDF") := by
  have hmax : (50 * 1024 * 1024 : Nat) = 52428800 := by norm_num
  by_cases ht : file.type = "application/pdf"
  · by_cases hs1 : 52428800 < file.size
    · refine ⟨"File size exceeds 50MB limit", ?_, ?_, fun hc => absurd ht hc,
        fun _ _ => rfl, fun _ hle _ => absurd hs1 (by omega),
        fun _ hle _ => absurd hs1 (by omega)⟩
      · refine uploadDocument_invalid env file productType _ ?_ (by decide)
        simp [validatePDF, ht, hmax, hs1]
      · simp [validatePDF, ht, hmax, hs1]
    · by_cases hs2 : file.size < 1024
      · refine ⟨"File is too small to be a valid PDF", ?_, ?_, fun hc => absurd ht hc,
          fun _ hgt => absurd hgt hs1, fun _ _ _ => rfl,
          fun _ _ hge => absurd hs2 (by omega)⟩
        · refine uploadDocument_invalid env file productType _ ?_ (by decide)
          simp [validatePDF, ht, hmax, hs1, hs2]
        · simp [validatePDF, ht, hmax, hs1, hs2]
      · rcases h with hc | hc | hc | ⟨bs, hbs, hst⟩
        · exact absurd ht hc
        · exact absurd hc hs1
        · exact absurd hc hs2
        · refine ⟨"File does not appear to be a valid PDF", ?_, ?_, fun hc => absurd ht hc,
            fun _ hgt => absurd hgt hs1, fun _ _ hlt => absurd hlt hs2, fun _ _ _ => rfl⟩
          · refine uploadDocument_invalid env file productType _ ?_ (by decide)
            simp [validatePDF, ht, hmax, hs1, hs2, hbs, hst]
          · simp [validatePDF, ht, hmax, hs1, hs2, hbs, hst]
  · refine ⟨"File must be a PDF document", ?_, ?_, fun _ => rfl,
      fun hc => absurd hc ht, fun hc => absurd hc ht, fun hc => absurd hc ht⟩
    · refine uploadDocument_invalid env file productType _ ?_ (by decide)
      simp [validatePDF, bne_iff_ne, ht]
    · simp [validatePDF, bne_iff_ne, ht]

/-- A concrete non-PDF file. -/
def sampleBadFile : UploadFile :=
  { name := "notes.txt"
    type := "text/plain"
    size := 4096
    headBytes := .ok [78, 79, 84, 80, 68] }

/-- A concrete upload environment in which every collaborator succeeds. -/
def sampleUploadEnv : UploadEnv :=
  { getUser := .ok (some ())
    freshPathSegment := "1700000000000-abc123def"
    storageUpload := fun path => .ok path
    getPublicUrl := fun path => "https://example.com/storage/" ++ path
    insertDocument := fun row =>
      .ok { id := "row-1"
            name := row.name
            description := row.description
            filename := row.filename
            fileUrl := row.fileUrl
            size := row.size
            type := row.type
            productType := row.productType
            required := row.required } }

/-- Closed instance of `uploadDocument_rejects_invalid`: a `text/plain` file
is rejected with the media-type message and no call is made. -/
theorem uploadDocument_rejects_invalid_witness :
    uploadDocument sampleUploadEnv sampleBadFile "underlayment" =
      ([], .error "File must be a PDF document") := by
  obtain ⟨msg, h1, _, h3, _⟩ :=
    uploadDocument_rejects_invalid sampleUploadEnv sampleBadFile "underlayment"
      (Or.inl (by decide))
  rw [h1, h3 (by decide)]

theorem b64Index_b64Char : ∀ n, n < 64 → b64Index (b64Char n) = some n := by decide

theorem b64Char_ne_pad : ∀ n, n < 64 → ¬(b64Char n = '=') := by decide

theorem base64DecodeChunks_encode :
    ∀ bytes : List Nat, (∀ b ∈ bytes, b < 256) →
      base64DecodeChunks (base64EncodeChunks bytes) = some bytes := by
  intro bytes
  induction bytes using base64EncodeChunks.induct with
  | case1 b0 b1 b2 rest ih =>
      intro h
      have hb0 : b0 < 256 := h b0 (by simp)
      have hb1 : b1 < 256 := h b1 (by simp)
      have hb2 : b2 < 256 := h b2 (by simp)
      have ih' := ih (fun b hb => h b (by simp [hb]))
      rw [base64EncodeChunks, base64DecodeChunks]
      simp only [b64Index_b64Char _ (by omega : b0 / 4 < 64),
        b64Index_b64Char _ (by omega : b0 % 4 * 16 + b1 / 16 < 64),
        b64Index_b64Char _ (by omega : b1 % 16 * 4 + b2 / 64 < 64),
        b64Index_b64Char _ (by omega : b2 % 64 < 64), ih']
      simp [b64Char_ne_pad _ (by omega : b1 % 16 * 4 + b2 / 64 < 64),
        b64Char_ne_pad _ (by omega : b2 % 64 < 64)]
      omega
  | case2 b0 b1 =>
      intro h
      have hb0 : b0 < 256 := h b0 (by simp)
      have hb1 : b1 < 256 := h b1 (by simp)
      rw [base64EncodeChunks, base64DecodeChunks]
      simp only [b64Index_b64Char _ (by omega : b0 / 4 < 64),
        b64Index_b64Char _ (by omega : b0 % 4 * 16 + b1 / 16 < 64),
        b64Index_b64Char _ (by omega : b1 % 16 * 4 < 64)]
      simp [b64Char_ne_pad _ (by omega : b1 % 16 * 4 < 64)]
      omega
  | case3 b0 =>
      intro h
      have hb0 : b0 < 256 := h b0 (by simp)
      rw [base64EncodeChunks, base64DecodeChunks]
      simp only [b64Index_b64Char _ (by omega : b0 / 4 < 64),
        b64Index_b64Char _ (by omega : b0 % 4 * 16 < 64)]
      simp
      omega
  | case4 =>
      intro h
      rfl

/-- C9: encoding a byte sequence with the document encoder's base64 (standard
alphabet, padding kept, no line folding) and decoding the result from
standard base64 yields the original bytes exactly. -/
theorem base64_roundTrip (bytes : List Nat) (h : ∀ b ∈ bytes, b < 256) :
    base64Decode (base64Encode bytes) = some bytes :=
  base64DecodeChunks_encode bytes h

/-- Closed instance of `base64_roundTrip` on the bytes of `"%PDF"`. -/
theorem base64_roundTrip_witness :
    base64Decode (base64Encode [37, 80, 68, 70]) = some [37, 80, 68, 70] :=
  base64_roundTrip [37, 80, 68, 70] (by decide)

theorem processDoc_ok (env : PdfEnv) (doc : SelectedDocument)
    (h : exportOk (env.exportDocumentAsBase64 doc.document.id) = true) :
    processDoc env doc = .ok (entryFor env doc) := by
  cases hd : env.exportDocumentAsBase64 doc.document.id with
  | error e => rw [hd] at h; simp [exportOk] at h
  | ok v => cases v <;> simp [processDoc, entryFor, hd]

theorem processAll_ok (env : PdfEnv) :
    ∀ docs : List SelectedDocument,
      (∀ d ∈ docs, exportOk (env.exportDocumentAsBase64 d.document.id) = true) →
      processAll env docs = .ok (docs.map (entryFor env))
  | [], _ => rfl
  | doc :: rest, h => by
      have h1 := processDoc_ok env doc (h doc (by simp))
      have h2 := processAll_ok env rest (fun d hm => h d (by simp [hm]))
      simp [processAll, h1, h2]

theorem processAll_error (env : PdfEnv) (name : String) :
    ∀ docs : List SelectedDocument,
      (∃ d ∈ docs, exportOk (env.exportDocumentAsBase64 d.document.id) = false) →
      (∀ d ∈ docs, exportOk (env.exportDocumentAsBase64 d.document.id) = false →
          d.document.name = name) →
      processAll env docs = .error (.documentProcessing name)
  | [], hex, _ => by simp at hex
  | doc :: rest, hex, hall => by
      cases hd : env.exportDocumentAsBase64 doc.document.id with
      | error e =>
          have hn : doc.document.name = name :=
            hall doc (by simp) (by simp [exportOk, hd])
          simp [processAll, processDoc, hd, hn]
      | ok v =>
          have hex' : ∃ d ∈ rest, exportOk (env.exportDocumentAsBase64 d.document.id) = false := by
            rcases hex with ⟨d, hdm, hdf⟩
            rcases List.mem_cons.mp hdm with rfl | hdm'
            · rw [hd] at hdf; simp [exportOk] at hdf
            · exact ⟨d, hdm', hdf⟩
          have hrec := processAll_error env name rest hex'
            (fun d hm hf => hall d (by simp [hm]) hf)
          simp [processAll, processDoc, hd, hrec]

/-- The renderer-call stage of `generatePacket`: classify the fetch outcome
into connectivity failure, render failure, empty artifact, or success. -/
def rendererStep (env : PdfEnv) (payload : PacketPayload) : Except PacketError (List Nat) :=
  match env.rendererFetch payload with
  | .networkError msg =>
      if messageIncludesFetch msg then .error (.rendererUnreachable workerUrl)
      else .error (.transportFailure msg)
  | .response r =>
      if !r.ok then .error (.render r.status (renderErrorMessage r))
      else if r.bytes.length == 0 then .error .emptyArtifact
      else .ok r.bytes

/-- When the selection is non-empty, every export succeeds and the catalog
fetch succeeds, `generatePacket` issues the export calls, the catalog fetch
and the renderer request carrying the assembled payload, and its result is
the classification of the renderer's outcome. -/
theorem generatePacket_eq_of_success (env : PdfEnv) (formData : ProjectFormInput)
    (selectedDocuments : List SelectedDocument) (catalog : List Document)
    (hne : selectedDocuments.filter (fun d => d.selected) ≠ [])
    (hok : ∀ d ∈ sortedSelection selectedDocuments,
        exportOk (env.exportDocumentAsBase64 d.document.id) = true)
    (hcat : env.getDocumentsByProductType formData.productType = .ok catalog) :
    generatePacket env formData selectedDocuments =
      ((sortedSelection selectedDocuments).map (fun d => Call.exportDocument d.document.id) ++
        [Call.catalogFetch formData.productType] ++
        [Call.rendererRequest (assembledPayload env formData selectedDocuments catalog)],
       rendererStep env (assembledPayload env formData selectedDocuments catalog)) := by
  have hlen : ((sortedSelection selectedDocuments).length == 0) = false := by
    simp only [sortedSelection, List.length_mergeSort, beq_eq_false_iff_ne, ne_eq,
      List.length_eq_zero]
    exact hne
  have hpa := processAll_ok env _ hok
  simp only [generatePacket, hlen, Bool.false_eq_true, if_false, hpa, hcat,
    assembledPayload, rendererStep]
  split <;> (try split) <;> (try split) <;> rfl

/-- C1: if the content export of one selected document throws (and any other
selected document whose export fails carries the same name), the assembly
fails with the document-processing error naming that document, and the call
trace consists of the export calls only: no catalog fetch and no renderer
request is issued, so no partial packet can be produced. -/
theorem generatePacket_document_failure (env : PdfEnv) (formData : ProjectFormInput)
    (selectedDocuments : List SelectedDocument) (failing : SelectedDocument)
    (hmem : failing ∈ selectedDocuments) (hsel : failing.selected = true)
    (hfail : exportOk (env.exportDocumentAsBase64 failing.document.id) = false)
    (hname : ∀ d ∈ selectedDocuments, d.selected = true →
        exportOk (env.exportDocumentAsBase64 d.document.id) = false →
        d.document.name = failing.document.name) :
    generatePacket env formData selectedDocuments =
      ((sortedSelection selectedDocuments).map (fun d => Call.exportDocument d.document.id),
       .error (.documentProcessing failing.document.name)) := by
  have hmem' : failing ∈ sortedSelection selectedDocuments := by
    simp only [sortedSelection, List.mem_mergeSort]
    exact List.mem_filter.mpr ⟨hmem, hsel⟩
  have hlen : ((sortedSelection selectedDocuments).length == 0) = false := by
    simp only [beq_eq_false_iff_ne, ne_eq, List.length_eq_zero]
    exact List.ne_nil_of_mem hmem'
  have hpe : processAll env (sortedSelection selectedDocuments) =
      .error (.documentProcessing failing.document.name) := by
    refine processAll_error env failing.document.name _ ⟨failing, hmem', hfail⟩ ?_
    intro d hd hfd
    have hd' : d ∈ selectedDocuments.filter (fun x => x.selected) := by
      simpa [sortedSelection] using hd
    exact hname d (List.mem_filter.mp hd').1
      (by simpa using (List.mem_filter.mp hd').2) hfd
  simp only [generatePacket, hlen, Bool.false_eq_true, if_false, hpe]

/-- Second concrete document. -/
def sampleDocument2 : Document :=
  { sampleDocument with id := "doc-2", name := "Evaluation Report" }

/-- Third concrete document. -/
def sampleDocument3 : Document :=
  { sampleDocument with id := "doc-3", name := "Limited Warranty" }

/-- A concrete selection of three selected entries, already in `order`. -/
def sampleSelection : List SelectedDocument :=
  [{ id := "sel-1", selected := true, order := 1, document := sampleDocument },
   { id := "sel-2", selected := true, order := 2, document := sampleDocument2 },
   { id := "sel-3", selected := true, order := 3, document := sampleDocument3 }]

theorem sortedSelection_sample : sortedSelection sampleSelection = sampleSelection := by
  rw [sortedSelection,
    show List.filter (fun d => d.selected) sampleSelection = sampleSelection from rfl]
  exact List.mergeSort_of_sorted (by decide)

/-- An environment in which exactly the export of `doc-2` throws. -/
def failEnv : PdfEnv :=
  { exportDocumentAsBase64 := fun id =>
      if id = "doc-2" then .error "boom" else .ok (some "JVBERg==")
    getDocumentsByProductType := fun _ => .ok []
    rendererFetch := fun _ => .response
      { status := 200, statusText := "OK", jsonBody := none, textBody := "",
        bytes := [37] } }

/-- Closed instance of `generatePacket_document_failure`: with three
selected documents of which exactly the middle one's export throws, the
assembly fails naming that document and only the three export calls are
made. -/
theorem generatePacket_document_failure_witness :
    generatePacket failEnv sampleFormInput sampleSelection =
      ([Call.exportDocument "doc-1", Call.exportDocument "doc-2",
        Call.exportDocument "doc-3"],
       .error (.documentProcessing "Evaluation Report")) := by
  rw [generatePacket_document_failure failEnv sampleFormInput sampleSelection
      { id := "sel-2", selected := true, order := 2, document := sampleDocument2 }
      (by decide) rfl (by decide) (by decide), sortedSelection_sample]
  rfl

theorem docLE_trans : ∀ a b c : SelectedDocument, docLE a b → docLE b c → docLE a c := by
  intro a b c hab hbc
  simp only [docLE, decide_eq_true_eq] at *
  omega

theorem docLE_total : ∀ a b : SelectedDocument, docLE a b || docLE b a := by
  intro a b
  simp only [docLE, Bool.or_eq_true, decide_eq_true_eq]
  omega

/-- C3: when at least one entry is selected (and the exports and the catalog
fetch succeed), the renderer request's document list is the image, one to
one and in order, of the sorted selection, which contains exactly the
`selected = true` entries of the input (as a permutation), is arranged in
ascending `order`, and breaks order ties by the entries' original sequence
(restricting to any tie class gives exactly the original subsequence). -/
theorem packetRequest_document_list (env : PdfEnv) (formData : ProjectFormInput)
    (selectedDocuments : List SelectedDocument) (catalog : List Document)
    (hne : selectedDocuments.filter (fun d => d.selected) ≠ [])
    (hok : ∀ d ∈ sortedSelection selectedDocuments,
        exportOk (env.exportDocumentAsBase64 d.document.id) = true)
    (hcat : env.getDocumentsByProductType formData.productType = .ok catalog) :
    List.Perm (sortedSelection selectedDocuments)
      (selectedDocuments.filter (fun d => d.selected)) ∧
    (sortedSelection selectedDocuments).Pairwise (fun a b => a.order ≤ b.order) ∧
    (∀ k : Int, (sortedSelection selectedDocuments).filter (fun d => d.order == k) =
        (selectedDocuments.filter (fun d => d.selected)).filter (fun d => d.order == k)) ∧
    (generatePacket env formData selectedDocuments).1 =
      (sortedSelection selectedDocuments).map (fun d => Call.exportDocument d.document.id) ++
        [Call.catalogFetch formData.productType] ++
        [Call.rendererRequest (assembledPayload env formData selectedDocuments catalog)] ∧
    (assembledPayload env formData selectedDocuments catalog).documents =
      (sortedSelection selectedDocuments).map (entryFor env) := by
  refine ⟨List.mergeSort_perm _ _, ?_, ?_, ?_, rfl⟩
  · have hp := List.sorted_mergeSort docLE_trans docLE_total
      (selectedDocuments.filter (fun d => d.selected))
    exact List.Pairwise.imp (fun hab => by simpa [docLE] using hab) hp
  · intro k
    rw [sortedSelection]
    have hpair : ((selectedDocuments.filter (fun d => d.selected)).filter
        (fun d => d.order == k)).Pairwise (fun a b => docLE a b) := by
      apply pairwiseOfMemRel
      intro a ha b hb
      have hak : a.order = k := by simpa using (List.mem_filter.mp ha).2
      have hbk : b.order = k := by simpa using (List.mem_filter.mp hb).2
      simp [docLE, hak, hbk]
    have hsub : List.Sublist
        ((selectedDocuments.filter (fun d => d.selected)).filter (fun d => d.order == k))
        ((selectedDocuments.filter (fun d => d.selected)).mergeSort docLE) :=
      List.sublist_mergeSort docLE_trans docLE_total hpair (List.filter_sublist _)
    have hsub2 := hsub.filter (fun d => d.order == k)
    rw [List.filter_filter] at hsub2
    simp only [Bool.and_self] at hsub2
    refine (hsub2.eq_of_length ?_).symm
    rw [← List.countP_eq_length_filter, ← List.countP_eq_length_filter]
    exact ((List.mergeSort_perm _ _).countP_eq _).symm
  · exact congrArg Prod.fst
      (generatePacket_eq_of_success env formData selectedDocuments catalog hne hok hcat)

/-- Closed instance of `packetRequest_document_list` on the three-document
sample selection and the happy-path environment. -/
theorem packetRequest_document_list_witness :
    List.Perm (sortedSelection sampleSelection)
      (sampleSelection.filter (fun d => d.selected)) ∧
    (sortedSelection sampleSelection).Pairwise (fun a b => a.order ≤ b.order) :=
  ⟨(packetRequest_document_list sampleEnv sampleFormInput sampleSelection [sampleDocument]
      (by decide) (by rw [sortedSelection_sample]; decide) rfl).1,
   (packetRequest_document_list sampleEnv sampleFormInput sampleSelection [sampleDocument]
      (by decide) (by rw [sortedSelection_sample]; decide) rfl).2.1⟩

/-- C5: a renderer response with a non-2xx status makes the assembly fail
with the render error carrying the response's status code and the composed
message; the composed message ends with the JSON body's `message` field when
the body parses and the field is truthy, and with the raw body text when the
body does not parse as JSON. -/
theorem generatePacket_render_error (env : PdfEnv) (formData : ProjectFormInput)
    (selectedDocuments : List SelectedDocument) (catalog : List Document)
    (r : RendererResponse)
    (hne : selectedDocuments.filter (fun d => d.selected) ≠ [])
    (hok : ∀ d ∈ sortedSelection selectedDocuments,
        exportOk (env.exportDocumentAsBase64 d.document.id) = true)
    (hcat : env.getDocumentsByProductType formData.productType = .ok catalog)
    (hresp : env.rendererFetch (assembledPayload env formData selectedDocuments catalog) =
        .response r)
    (hnotok : r.ok = false) :
    (generatePacket env formData selectedDocuments).2 =
      .error (.render r.status (renderErrorMessage r)) ∧
    (∀ errorData m, r.jsonBody = some errorData → errorData.message = some m →
        (m == "") = false → ∃ a, renderErrorMessage r = a ++ m) ∧
    (r.jsonBody = none → ∃ a, renderErrorMessage r = a ++ r.textBody) := by
  refine ⟨?_, ?_, ?_⟩
  · rw [generatePacket_eq_of_success env formData selectedDocuments catalog hne hok hcat]
    simp [rendererStep, hresp, hnotok]
  · intro errorData m hj hm hmne
    refine ⟨"Worker request failed: " ++ toString r.status ++ " " ++ r.statusText ++ " - ", ?_⟩
    simp [renderErrorMessage, hj, hm, hmne, String.append_assoc]
  · intro hj
    refine ⟨"Worker request failed: " ++ toString r.status ++ " " ++ r.statusText ++ " - ", ?_⟩
    simp [renderErrorMessage, hj, String.append_assoc]

/-- The renderer response of the C5 scenario: HTTP 500 with JSON body
carrying `message = "boom"`. -/
def boomResponse : RendererResponse :=
  { status := 500
    statusText := "Internal Server Error"
    jsonBody := some { message := some "boom", stringified := "\x7b\"message\":\"boom\"\x7d" }
    textBody := ""
    bytes := [] }

/-- An environment whose renderer always answers with `boomResponse`. -/
def boomEnv : PdfEnv :=
  { exportDocumentAsBase64 := fun _ => .ok (some "JVBERg==")
    getDocumentsByProductType := fun _ => .ok [sampleDocument]
    rendererFetch := fun _ => .response boomResponse }

/-- Closed instance of `generatePacket_render_error`: HTTP 500 with body
`message = "boom"` produces the render error with status 500 and a message
ending in `"boom"`. -/
theorem generatePacket_render_error_witness :
    (generatePacket boomEnv sampleFormInput sampleSelection).2 =
      .error (.render 500 (renderErrorMessage boomResponse)) ∧
    ∃ a, renderErrorMessage boomResponse = a ++ "boom" := by
  have h := generatePacket_render_error boomEnv sampleFormInput sampleSelection
    [sampleDocument] boomResponse (by decide)
    (by rw [sortedSelection_sample]; decide) rfl rfl rfl
  exact ⟨h.1, h.2.1 { message := some "boom", stringified := "\x7b\"message\":\"boom\"\x7d" }
    "boom" rfl rfl (by decide)⟩

/-- C6: a 2xx renderer response with a zero-length body makes the assembly
fail with the empty-artifact error, and a 2xx response with a non-empty body
makes it return exactly those bytes. -/
theorem generatePacket_artifact (env : PdfEnv) (formData : ProjectFormInput)
    (selectedDocuments : List SelectedDocument) (catalog : List Document)
    (r : RendererResponse)
    (hne : selectedDocuments.filter (fun d => d.selected) ≠ [])
    (hok : ∀ d ∈ sortedSelection selectedDocuments,
        exportOk (env.exportDocumentAsBase64 d.document.id) = true)
    (hcat : env.getDocumentsByProductType formData.productType = .ok catalog)
    (hresp : env.rendererFetch (assembledPayload env formData selectedDocuments catalog) =
        .response r)
    (hsucc : r.ok = true) :
    (r.bytes = [] →
      (generatePacket env formData selectedDocuments).2 = .error .emptyArtifact) ∧
    (r.bytes ≠ [] →
      (generatePacket env formData selectedDocuments).2 = .ok r.bytes) := by
  constructor <;> intro hb <;>
    rw [generatePacket_eq_of_success env formData selectedDocuments catalog hne hok hcat] <;>
    simp [rendererStep, hresp, hsucc, hb, List.length_eq_zero]

/-- An environment whose renderer answers 200 with a zero-length body. -/
def emptyBodyEnv : PdfEnv :=
  { exportDocumentAsBase64 := fun _ => .ok (some "JVBERg==")
    getDocumentsByProductType := fun _ => .ok [sampleDocument]
    rendererFetch := fun _ => .response
      { status := 200, statusText := "OK", jsonBody := none, textBody := "", bytes := [] } }

/-- Closed instance of `generatePacket_artifact`: a 200 response with zero
bytes fails with the empty-artifact error, and a 200 response with the bytes
of `"%PDF"` returns exactly those bytes. -/
theorem generatePacket_artifact_witness :
    (generatePacket emptyBodyEnv sampleFormInput sampleSelection).2 =
      .error .emptyArtifact ∧
    (generatePacket sampleEnv sampleFormInput sampleSelection).2 =
      .ok [37, 80, 68, 70] :=
  ⟨(generatePacket_artifact emptyBodyEnv sampleFormInput sampleSelection [sampleDocument]
      { status := 200, statusText := "OK", jsonBody := none, textBody := "", bytes := [] }
      (by decide) (by rw [sortedSelection_sample]; decide) rfl rfl rfl).1 rfl,
   (generatePacket_artifact sampleEnv sampleFormInput sampleSelection [sampleDocument]
      { status := 200, statusText := "OK", jsonBody := none, textBody := "",
        bytes := [37, 80, 68, 70] }
      (by decide) (by rw [sortedSelection_sample]; decide) rfl rfl rfl).2 (by decide)⟩
